import Mathlib

/-!
# AccessiClock audio-timing core — shallow embedding

Shallow embedding of the audio-timing core of the AccessiClock
application (`src/accessiclock/managers/audio_manager.py`,
`src/accessiclock/managers/chime_scheduler.py`,
`src/accessiclock/backends/pygame_backend.py`), together with theorems
settling the specification claims about it.

Modelling conventions:
* Python `float` volumes are modelled as exact rationals (`ℚ`); the code
  only stores, compares and multiplies them.
* `datetime` values are modelled by their time-of-day fields
  `(hour, minute, second)`.  Every `datetime.replace(...)` call in the
  scheduler keeps the date unchanged, so all values compared by the code
  lie on the same calendar day and comparison of datetimes coincides
  with comparison of seconds-since-midnight.
* Exceptions never escape the public operations (each body is wrapped
  in `try/except` returning `False`), so operations are total functions
  returning `Bool × State`.
* The pygame library, the filesystem and the audio hardware are an
  environment parameter (`Env`): which paths exist, which decode
  successfully, and whether pygame imported / the mixer initialised.
-/

namespace AccessiClock

/-- `AudioType` enumeration from `audio_manager.py`. -/
inductive AudioType
  | tick
  | hourChime
  | quarterChime
  | halfChime
  | speech
deriving DecidableEq, Repr

/-- `ChimeInterval` enumeration from `chime_scheduler.py`. -/
inductive ChimeInterval
  | quarterHour
  | halfHour
  | hour
deriving DecidableEq, Repr

/-! ## Paths and supported formats -/

/-- `AudioManager.SUPPORTED_FORMATS`. -/
def SUPPORTED_FORMATS : List String := [".wav", ".ogg", ".mp3"]

/-- Split a character list at every occurrence of `sep` (Python
`str.split(sep)` semantics). -/
def splitOnChar (sep : Char) : List Char → List (List Char)
  | [] => [[]]
  | c :: cs =>
      let rest := splitOnChar sep cs
      if c = sep then [] :: rest
      else
        match rest with
        | [] => [[c]]
        | r :: rs => (c :: r) :: rs

/-- The final path component, as `pathlib.PurePath.name` computes it for
the plain relative paths the application passes around. -/
def pathNameChars (p : List Char) : List Char :=
  (splitOnChar '/' p).getLastD []

/-- Index of the last `'.'` in `cs` (`str.rfind('.')`). -/
def lastDotIndex (cs : List Char) : Option Nat :=
  ((List.range cs.length).filter fun i => cs.getD i ' ' = '.').getLast?

/-- `pathlib.PurePath.suffix`: the part of `name` from its last dot,
provided that dot is neither the first character nor the last one
(`0 < i < len(name) - 1` in the pathlib source). -/
def pathSuffixChars (p : List Char) : List Char :=
  let name := pathNameChars p
  match lastDotIndex name with
  | some i => if 0 < i ∧ i + 1 < name.length then name.drop i else []
  | none => []

/-- `str.lower()` restricted to ASCII, which covers every extension the
code compares. -/
def asciiLower (c : Char) : Char :=
  if 'A' ≤ c ∧ c ≤ 'Z' then Char.ofNat (c.toNat + 32) else c

/-- `AudioManager._is_supported_format`:
`file_path.suffix.lower() in self.SUPPORTED_FORMATS`. -/
def isSupportedFormat (p : String) : Bool :=
  (SUPPORTED_FORMATS.map String.toList).contains
    ((pathSuffixChars p.toList).map asciiLower)

/-! ## Environment: pygame availability, filesystem, decoder -/

/-- How the pygame subsystem behaves for this process:
* `ok` — pygame imported and `pygame.mixer.init()` succeeded;
* `unavailable` — the `import pygame` failed, the module-level
  `MockPygame` shim is in use;
* `initError` — pygame imported but `pygame.mixer.init()` raised
  `pygame.error` (audio hardware unavailable). -/
inductive PygameMode
  | ok
  | unavailable
  | initError
deriving DecidableEq, Repr

/-- External environment of the audio manager. -/
structure Env where
  mode : PygameMode
  /-- `Path.exists()` for each path. -/
  fileExists : String → Bool
  /-- whether `pygame.mixer.Sound(path)` decodes the file without
  raising (only consulted in `ok` mode). -/
  decodeOk : String → Bool

/-! ## Audio manager state -/

/-- A loaded `pygame.mixer.Sound` handle; `volume` records the value of
the last `Sound.set_volume` call made on it. -/
structure Sound where
  volume : ℚ
deriving DecidableEq, Repr

/-- A channel object held in `_channels`.  Three kinds occur:
* `real busy` — a live `pygame.mixer.Channel` (only in `ok` mode);
* `mockModule` — an instance of the module-level `MockPygame.mixer.Channel`
  class (pygame import failed); its methods are proper methods:
  `get_busy()` returns `False`, `play`/`stop` are no-ops;
* `mockBroken` — the `type('MockChannel', (), {...})()` instance
  installed when mixer initialisation raises; its dict entries are
  zero-argument lambdas that omit `self`, so *calling any of its
  methods raises `TypeError`*. -/
inductive Channel
  | real (busy : Bool)
  | mockModule
  | mockBroken
deriving DecidableEq, Repr

/-- `channel.get_busy()`: `some b` is a normal return, `none` means the
call raised (`TypeError` from the broken mock channel's self-less
lambda). -/
def channelGetBusy : Channel → Option Bool
  | .real busy => some busy
  | .mockModule => some false
  | .mockBroken => none

/-- State of an `AudioManager` instance.  `volumeSettings` models the
`_volume_settings` dict: `none` means the key is absent. -/
structure AudioManagerState where
  initialized : Bool
  soundFiles : AudioType → Option Sound
  volumeSettings : AudioType → Option ℚ
  masterVolume : ℚ
  channels : AudioType → Option Channel

/-- The `_volume_settings` dict populated by `AudioManager.__init__`. -/
def initialVolumeSettings : AudioType → Option ℚ
  | .tick => some (8/10)
  | .hourChime => some 1
  | .quarterChime => some 1
  | .halfChime => some 1
  | .speech => some (9/10)

/-- The channel object `_initialize_mixer` installs per audio type in
each mode: live channels in `ok` mode, the module-level mock class in
`unavailable` mode, and the broken `type('MockChannel', ...)` instance
in `initError` mode. -/
def mkChannel : PygameMode → Channel
  | .ok => Channel.real false
  | .unavailable => Channel.mockModule
  | .initError => Channel.mockBroken

/-- `AudioManager.__init__` followed by `_initialize_mixer`.  In every
mode the constructor swallows initialisation failures, sets
`_initialized = True` and installs a channel per audio type. -/
def mkAudioManager (mode : PygameMode) : AudioManagerState :=
  { initialized := true
    soundFiles := fun _ => none
    volumeSettings := initialVolumeSettings
    masterVolume := 1
    channels := fun _ => some (mkChannel mode) }

/-- `pygame.mixer.Sound(path)` as seen from `AudioManager`:
* with the module-level mock (`unavailable`) the constructor is a no-op
  and always succeeds;
* with pygame present but the mixer uninitialised (`initError`) it
  raises `pygame.error`;
* in `ok` mode it succeeds iff the file decodes. -/
def mixerSoundLoad (env : Env) (path : String) : Option Sound :=
  match env.mode with
  | .unavailable => some { volume := 1 }
  | .initError => none
  | .ok => if env.decodeOk path then some { volume := 1 } else none

/-- `AudioManager.load_sound_file`. -/
def loadSoundFile (env : Env) (s : AudioManagerState) (t : AudioType) (path : String) :
    Bool × AudioManagerState :=
  if s.initialized = false then (false, s)
  else if env.fileExists path = false then (false, s)   -- FileNotFoundError, caught
  else if isSupportedFormat path = false then (false, s) -- ValueError, caught
  else
    match mixerSoundLoad env path with
    | none => (false, s)                                 -- pygame.error, caught
    | some _ =>
        let volume := (s.volumeSettings t).getD 1 * s.masterVolume
        (true, { s with
          soundFiles := fun u => if u = t then some { volume := volume } else s.soundFiles u })

/-- `AudioManager.play_sound`: fail without a loaded sound or a
channel; `channel.get_busy()` raising (broken mock channel) is caught
by the `except Exception` and yields `False`; otherwise stop the
channel if busy and `channel.play(sound)` (a no-op on the module-level
mock, which stays idle). -/
def playSound (s : AudioManagerState) (t : AudioType) : Bool × AudioManagerState :=
  if s.initialized = false then (false, s)
  else
    match s.soundFiles t with
    | none => (false, s)
    | some _ =>
        match s.channels t with
        | none => (false, s)
        | some ch =>
            match channelGetBusy ch with
            | none => (false, s)   -- TypeError from the broken mock, caught
            | some _ =>
                let ch' := match ch with
                  | Channel.real _ => Channel.real true
                  | c => c
                (true, { s with
                  channels := fun u => if u = t then some ch' else s.channels u })

/-- `AudioManager.stop_sound`: `if channel and channel.get_busy()` —
a missing channel short-circuits to success, a raising `get_busy()`
(broken mock channel) is caught by the `except Exception` and yields
`False`, and a busy channel is stopped. -/
def stopSound (s : AudioManagerState) (t : AudioType) : Bool × AudioManagerState :=
  if s.initialized = false then (false, s)
  else
    match s.channels t with
    | none => (true, s)
    | some ch =>
        match channelGetBusy ch with
        | none => (false, s)       -- TypeError from the broken mock, caught
        | some busy =>
            if busy then
              (true, { s with
                channels := fun u => if u = t then some (Channel.real false) else s.channels u })
            else (true, s)

/-- `AudioManager.set_volume`. -/
def setVolume (s : AudioManagerState) (t : AudioType) (v : ℚ) : Bool × AudioManagerState :=
  if ¬ (0 ≤ v ∧ v ≤ 1) then (false, s)
  else
    let settings := fun u => if u = t then some v else s.volumeSettings u
    match s.soundFiles t with
    | some _ =>
        (true, { s with
          volumeSettings := settings
          soundFiles := fun u =>
            if u = t then some { volume := v * s.masterVolume } else s.soundFiles u })
    | none => (true, { s with volumeSettings := settings })

/-- `AudioManager.set_master_volume`. -/
def setMasterVolume (s : AudioManagerState) (v : ℚ) : Bool × AudioManagerState :=
  if ¬ (0 ≤ v ∧ v ≤ 1) then (false, s)
  else
    (true, { s with
      masterVolume := v
      soundFiles := fun t =>
        match s.soundFiles t with
        | some _ => some { volume := (s.volumeSettings t).getD 1 * v }
        | none => none })

/-- `AudioManager.get_volume`: `self._volume_settings.get(audio_type, 1.0)`. -/
def getVolume (s : AudioManagerState) (t : AudioType) : ℚ :=
  (s.volumeSettings t).getD 1

/-- `AudioManager.get_master_volume`. -/
def getMasterVolume (s : AudioManagerState) : ℚ :=
  s.masterVolume

/-! ## Chime scheduler -/

/-- A wall-clock time of day (the date fields of the `datetime` are
never modified by the scheduler, see module comment). -/
structure Time where
  hour : Nat
  minute : Nat
  second : Nat
deriving DecidableEq, Repr

/-- Seconds since midnight; `datetime` comparison restricted to a single
day. -/
def toSeconds (t : Time) : Nat :=
  t.hour * 3600 + t.minute * 60 + t.second

/-- State of a `ChimeScheduler` instance.  Callbacks are held only by
reference; the model records for each interval whether one is set. -/
structure SchedulerState where
  enabled : Bool
  running : Bool
  chimeIntervals : ChimeInterval → Bool
  chimeCallbacks : ChimeInterval → Bool

/-- `ChimeScheduler.__init__`: enabled, not running, all intervals
enabled, no callbacks. -/
def mkChimeScheduler : SchedulerState :=
  { enabled := true
    running := false
    chimeIntervals := fun _ => true
    chimeCallbacks := fun _ => false }

/-- `ChimeScheduler.set_chime_interval_enabled`. -/
def setChimeIntervalEnabled (s : SchedulerState) (i : ChimeInterval) (b : Bool) :
    SchedulerState :=
  { s with chimeIntervals := fun j => if j = i then b else s.chimeIntervals j }

/-- `ChimeScheduler.set_chime_callback` (`cb = true` registers a
callback, `cb = false` is passing `None`). -/
def setChimeCallback (s : SchedulerState) (i : ChimeInterval) (cb : Bool) :
    SchedulerState :=
  { s with chimeCallbacks := fun j => if j = i then cb else s.chimeCallbacks j }

/-- The QUARTER_HOUR branch of `get_next_chime_time`:
`next_quarter = ((minutes // 15) + 1) * 15`, wrapping to
`hour = (hour + 1) % 24, minute = 0` when `next_quarter >= 60`; the
date is left unchanged by `datetime.replace`. -/
def nextQuarterTime (now : Time) : Time :=
  let nextQuarter := (now.minute / 15 + 1) * 15
  if 60 ≤ nextQuarter then { hour := (now.hour + 1) % 24, minute := 0, second := 0 }
  else { now with minute := nextQuarter, second := 0 }

/-- The HALF_HOUR branch of `get_next_chime_time`. -/
def nextHalfTime (now : Time) : Time :=
  if now.minute < 30 then { now with minute := 30, second := 0 }
  else { hour := (now.hour + 1) % 24, minute := 0, second := 0 }

/-- The HOUR branch of `get_next_chime_time`. -/
def nextHourTime (now : Time) : Time :=
  { hour := (now.hour + 1) % 24, minute := 0, second := 0 }

/-- Python's `min` over a nonempty list of same-day datetimes (keeps the
earlier element, first on ties). -/
def minTime (x : Time) (xs : List Time) : Time :=
  xs.foldl (fun a b => if toSeconds b < toSeconds a then b else a) x

/-- `ChimeScheduler.get_next_chime_time`.  The candidate list is built
in the `_chime_intervals` dict's insertion order (quarter, half, hour). -/
def getNextChimeTime (s : SchedulerState) (now : Time) : Option Time :=
  if s.enabled = false then none
  else
    let nextTimes :=
      (if s.chimeIntervals .quarterHour then [nextQuarterTime now] else []) ++
      (if s.chimeIntervals .halfHour then [nextHalfTime now] else []) ++
      (if s.chimeIntervals .hour then [nextHourTime now] else [])
    match nextTimes with
    | [] => none
    | x :: xs => some (minTime x xs)

/-- The `chimes_to_play` list computed by
`ChimeScheduler._check_and_play_chimes` from the sampled minute. -/
def chimesToPlay (s : SchedulerState) (minute : Nat) : List ChimeInterval :=
  (if minute = 0 ∧ s.chimeIntervals .hour then [ChimeInterval.hour] else []) ++
  (if minute = 30 ∧ s.chimeIntervals .halfHour then [ChimeInterval.halfHour] else []) ++
  (if (minute = 15 ∨ minute = 45) ∧ s.chimeIntervals .quarterHour then
    [ChimeInterval.quarterHour] else [])

/-- The `audio_type_map` in `ChimeScheduler._play_chime`. -/
def audioTypeOf : ChimeInterval → AudioType
  | .quarterHour => .quarterChime
  | .halfHour => .halfChime
  | .hour => .hourChime

/-- Result of `ChimeScheduler._play_chime`: the returned boolean, the
play requests issued to the audio manager, and the callback invocations
`(interval, timestamp)` performed.  `playResult` is the audio manager's
`play_sound` outcome; `now` is the `datetime.now()` sampled for the
callback. -/
def playChime (s : SchedulerState) (playResult : AudioType → Bool) (now : Time)
    (i : ChimeInterval) : Bool × List AudioType × List (ChimeInterval × Time) :=
  let t := audioTypeOf i
  if playResult t then
    (true, [t], if s.chimeCallbacks i then [(i, now)] else [])
  else
    (false, [t], [])

/-- `ChimeScheduler.trigger_chime_now`. -/
def triggerChimeNow (s : SchedulerState) (playResult : AudioType → Bool) (now : Time)
    (i : ChimeInterval) : Bool × List AudioType × List (ChimeInterval × Time) :=
  if s.enabled = false then (false, [], [])
  else playChime s playResult now i


/-! ## Fixtures and derived notions used by the verification -/

/-- Scheduler state with only the Hour interval enabled. -/
def hourOnly : SchedulerState :=
  { enabled := true, running := false,
    chimeIntervals := fun i => match i with | .hour => true | _ => false,
    chimeCallbacks := fun _ => false }

/-- Scheduler state with only the HalfHour interval enabled. -/
def halfOnly : SchedulerState :=
  { enabled := true, running := false,
    chimeIntervals := fun i => match i with | .halfHour => true | _ => false,
    chimeCallbacks := fun _ => false }

/-- Scheduler state with only the QuarterHour interval enabled. -/
def quarterOnly : SchedulerState :=
  { enabled := true, running := false,
    chimeIntervals := fun i => match i with | .quarterHour => true | _ => false,
    chimeCallbacks := fun _ => false }

/-- The freshly constructed scheduler with `set_enabled(False)` applied
while not running (only the flag changes). -/
def disabledScheduler : SchedulerState :=
  { mkChimeScheduler with enabled := false }

/-- Modelled from the spec, for comparison with the code's firing
decision: minute 0 fires Hour, minute 30 fires HalfHour, minutes 15 and
45 fire QuarterHour. -/
def specFiringMinute : ChimeInterval → Nat → Bool
  | .hour, m => m == 0
  | .halfHour, m => m == 30
  | .quarterHour, m => m == 15 || m == 45

/-- Fully functional environment: pygame present, every path exists and
decodes. -/
def envOkAll : Env := ⟨PygameMode.ok, fun _ => true, fun _ => true⟩

/-- The volume invariant maintained by the audio manager: every stored
per-type volume and the master volume lie in `[0, 1]`, and every loaded
sound carries the composed effective volume
`volume_settings.get(type, 1.0) * master_volume`. -/
def VolumeInvariant (s : AudioManagerState) : Prop :=
  (∀ t v, s.volumeSettings t = some v → 0 ≤ v ∧ v ≤ 1) ∧
  (0 ≤ s.masterVolume ∧ s.masterVolume ≤ 1) ∧
  (∀ t snd, s.soundFiles t = some snd →
    snd.volume = (s.volumeSettings t).getD 1 * s.masterVolume)

/-! ## Helper lemmas -/

/-- Membership in a conditional singleton list. -/
theorem mem_ite_singleton {c : Prop} [Decidable c] {a b : ChimeInterval} :
    (a ∈ (if c then [b] else [])) ↔ (c ∧ a = b) := by
  split_ifs with h <;> simp [h]

/-- The constructor establishes the volume invariant in every pygame
mode. -/
theorem volumeInvariant_mk (m : PygameMode) : VolumeInvariant (mkAudioManager m) := by
  refine ⟨?_, by norm_num [mkAudioManager], ?_⟩
  · intro t v h
    cases t <;> simp [mkAudioManager, initialVolumeSettings] at h <;> subst h <;> norm_num
  · intro t snd h
    simp [mkAudioManager] at h

/-- A type volume read through the dict default stays in `[0, 1]` when
every stored setting does. -/
theorem volumeSetting_getD_bounds (s : AudioManagerState)
    (hset : ∀ t v, s.volumeSettings t = some v → 0 ≤ v ∧ v ≤ 1) (u : AudioType) :
    0 ≤ (s.volumeSettings u).getD 1 ∧ (s.volumeSettings u).getD 1 ≤ 1 := by
  cases hsu : s.volumeSettings u
  · simp
  · simpa using hset u _ hsu

/-- `load_sound_file` preserves the volume invariant. -/
theorem volumeInvariant_load (env : Env) (s : AudioManagerState) (t : AudioType) (p : String)
    (h : VolumeInvariant s) : VolumeInvariant (loadSoundFile env s t p).snd := by
  obtain ⟨hset, hmv, hsnd⟩ := h
  unfold loadSoundFile
  split_ifs
  · exact ⟨hset, hmv, hsnd⟩
  · exact ⟨hset, hmv, hsnd⟩
  · exact ⟨hset, hmv, hsnd⟩
  · cases hms : mixerSoundLoad env p <;> simp only [hms]
    · exact ⟨hset, hmv, hsnd⟩
    · refine ⟨hset, hmv, ?_⟩
      intro u snd hu
      by_cases hut : u = t
      · subst hut
        simp only [if_pos rfl] at hu
        cases hu
        rfl
      · simp only [if_neg hut] at hu
        exact hsnd u snd hu

/-- `set_volume` preserves the volume invariant. -/
theorem volumeInvariant_setVolume (s : AudioManagerState) (t : AudioType) (v : ℚ)
    (h : VolumeInvariant s) : VolumeInvariant (setVolume s t v).snd := by
  obtain ⟨hset, hmv, hsnd⟩ := h
  unfold setVolume
  split_ifs with hc
  · cases hsf : s.soundFiles t <;>
      refine ⟨?_, hmv, ?_⟩
    · intro u w hw
      by_cases hut : u = t
      · subst hut; simp only [if_pos rfl] at hw; cases hw; exact hc
      · simp only [if_neg hut] at hw; exact hset u w hw
    · intro u w hw
      by_cases hut : u = t
      · subst hut; rw [hsf] at hw; cases hw
      · simp only [if_neg hut]
        exact hsnd u w hw
    · intro u w hw
      by_cases hut : u = t
      · subst hut; simp only [if_pos rfl] at hw; cases hw; exact hc
      · simp only [if_neg hut] at hw; exact hset u w hw
    · intro u w hw
      by_cases hut : u = t
      · subst hut
        simp only [if_pos rfl] at hw ⊢
        cases hw
        simp
      · simp only [if_neg hut] at hw ⊢
        exact hsnd u w hw
  · exact ⟨hset, hmv, hsnd⟩

/-- `set_master_volume` preserves the volume invariant. -/
theorem volumeInvariant_setMasterVolume (s : AudioManagerState) (v : ℚ)
    (h : VolumeInvariant s) : VolumeInvariant (setMasterVolume s v).snd := by
  obtain ⟨hset, hmv, hsnd⟩ := h
  unfold setMasterVolume
  split_ifs with hc
  · refine ⟨hset, hc, ?_⟩
    intro u w hw
    cases hsu : s.soundFiles u <;> simp only [hsu] at hw
    · cases hw
    · cases hw
      rfl
  · exact ⟨hset, hmv, hsnd⟩

/-! ## Claim theorems -/

/-- C1: the spec's three examples of `get_next_chime_time` hold (Hour at
10:45:00 gives 11:00:00, HalfHour at 10:20:00 gives 10:30:00,
QuarterHour at 10:07:30 gives 10:15:00), but the claim's universal
statement fails in the last hour of the day: at 23:45:00 with only Hour
enabled the code returns 00:00:00 of the *same* day — `(hour + 1) % 24`
wraps the hour without advancing the date — which is 23 h 45 min in the
past, not the earliest strictly-future hour boundary. -/
theorem getNextChimeTime_examples_and_midnight_wrap :
    getNextChimeTime hourOnly ⟨10, 45, 0⟩ = some ⟨11, 0, 0⟩ ∧
    getNextChimeTime halfOnly ⟨10, 20, 0⟩ = some ⟨10, 30, 0⟩ ∧
    getNextChimeTime quarterOnly ⟨10, 7, 30⟩ = some ⟨10, 15, 0⟩ ∧
    getNextChimeTime hourOnly ⟨23, 45, 0⟩ = some ⟨0, 0, 0⟩ ∧
    toSeconds ⟨0, 0, 0⟩ < toSeconds ⟨23, 45, 0⟩ := by
  decide

/-- C4: the firing decision selects chimes by minute alone and is
exclusive — an interval fires exactly when it is enabled and the minute
matches its rule (Hour at 0; HalfHour at 30; QuarterHour at 15 or 45),
at most one chime fires at any instant, and a disabled interval never
fires. -/
theorem chimesToPlay_minute_rule (s : SchedulerState) (minute : Nat) :
    (∀ i, i ∈ chimesToPlay s minute ↔
      (s.chimeIntervals i = true ∧ specFiringMinute i minute = true)) ∧
    (chimesToPlay s minute).length ≤ 1 := by
  constructor
  · intro i
    simp only [chimesToPlay, List.mem_append, mem_ite_singleton]
    cases i <;> simp [specFiringMinute] <;> tauto
  · by_cases h0 : minute = 0 <;> by_cases h30 : minute = 30 <;>
      by_cases h15 : minute = 15 <;> by_cases h45 : minute = 45 <;>
      simp_all [chimesToPlay] <;> split_ifs <;> simp_all

/-- Witness for C4: at minute 0 with the default (all-enabled) state the
Hour chime is selected, and at minute 7 at most one chime is selected. -/
theorem chimesToPlay_minute_rule_witness :
    ChimeInterval.hour ∈ chimesToPlay mkChimeScheduler 0 ∧
    (chimesToPlay mkChimeScheduler 7).length ≤ 1 :=
  ⟨((chimesToPlay_minute_rule mkChimeScheduler 0).1 ChimeInterval.hour).2 (by decide),
   (chimesToPlay_minute_rule mkChimeScheduler 7).2⟩

/-- C8: `trigger_chime_now` returns false and issues no play request
when the scheduler is disabled, and otherwise returns true exactly when
the audio manager's `play_sound` reports success. -/
theorem triggerChimeNow_results (s : SchedulerState) (pr : AudioType → Bool) (now : Time)
    (i : ChimeInterval) :
    (s.enabled = false → triggerChimeNow s pr now i = (false, [], [])) ∧
    ((triggerChimeNow s pr now i).fst = true ↔
      s.enabled = true ∧ pr (audioTypeOf i) = true) := by
  cases hs : s.enabled <;> cases hp : pr (audioTypeOf i) <;>
    simp [triggerChimeNow, playChime, hs, hp]

/-- Witness for C8: triggering on a disabled scheduler returns false
with no play request and no callback. -/
theorem triggerChimeNow_results_witness :
    triggerChimeNow disabledScheduler (fun _ => true) ⟨10, 0, 0⟩ ChimeInterval.hour
      = (false, [], []) :=
  (triggerChimeNow_results disabledScheduler (fun _ => true) ⟨10, 0, 0⟩
    ChimeInterval.hour).1 rfl

/-- C9: on playback success with a callback registered the callback is
invoked exactly once with `(interval, timestamp)`; on playback failure
it is never invoked; and once the callback is set to `None` it is never
invoked again. -/
theorem playChime_callback_invocations (s : SchedulerState) (pr : AudioType → Bool)
    (now : Time) (i : ChimeInterval) :
    (pr (audioTypeOf i) = true → s.chimeCallbacks i = true →
      (playChime s pr now i).fst = true ∧
      (playChime s pr now i).snd.snd = [(i, now)]) ∧
    ((playChime s pr now i).fst = false → (playChime s pr now i).snd.snd = []) ∧
    ((setChimeCallback s i false).chimeCallbacks i = false) ∧
    (∀ s' : SchedulerState, s'.chimeCallbacks i = false →
      (playChime s' pr now i).snd.snd = []) := by
  refine ⟨?_, ?_, ?_, ?_⟩
  · intro hp hc
    simp [playChime, hp, hc]
  · intro hf
    cases hp : pr (audioTypeOf i) <;> simp_all [playChime]
  · simp [setChimeCallback]
  · intro s' hc
    cases hp : pr (audioTypeOf i) <;> simp [playChime, hp, hc]

/-- Witness for C9: with a callback registered for Hour, a successful
chime invokes it exactly once with the pair, and after removal no
invocation happens. -/
theorem playChime_callback_invocations_witness :
    (playChime (setChimeCallback mkChimeScheduler .hour true) (fun _ => true)
        ⟨10, 0, 0⟩ ChimeInterval.hour).snd.snd = [(ChimeInterval.hour, ⟨10, 0, 0⟩)] ∧
    (playChime (setChimeCallback mkChimeScheduler .hour false) (fun _ => true)
        ⟨10, 0, 0⟩ ChimeInterval.hour).snd.snd = [] :=
  ⟨((playChime_callback_invocations (setChimeCallback mkChimeScheduler .hour true)
        (fun _ => true) ⟨10, 0, 0⟩ ChimeInterval.hour).1 rfl (by decide)).2,
   (playChime_callback_invocations mkChimeScheduler (fun _ => true) ⟨10, 0, 0⟩
        ChimeInterval.hour).2.2.2 (setChimeCallback mkChimeScheduler .hour false) (by decide)⟩

/-- C10: `get_next_chime_time` does not read the Running/Stopped flag,
and it returns `None` exactly when the scheduler is disabled or no
interval is enabled. -/
theorem getNextChimeTime_state_dependence (s : SchedulerState) (r : Bool) (now : Time) :
    getNextChimeTime { s with running := r } now = getNextChimeTime s now ∧
    (getNextChimeTime s now = none ↔
      (s.enabled = false ∨ ∀ i, s.chimeIntervals i = false)) := by
  refine ⟨rfl, ?_⟩
  cases hs : s.enabled
  · simp [getNextChimeTime, hs]
  · cases hq : s.chimeIntervals .quarterHour <;>
    cases hh : s.chimeIntervals .halfHour <;>
    cases hr : s.chimeIntervals .hour <;>
      simp [getNextChimeTime, hs, hq, hh, hr]
    · intro i; cases i <;> assumption
    all_goals
      first
        | exact ⟨ChimeInterval.quarterHour, hq⟩
        | exact ⟨ChimeInterval.halfHour, hh⟩
        | exact ⟨ChimeInterval.hour, hr⟩

/-- Witness for C10: flipping the running flag on the default state does
not change the computed next chime time. -/
theorem getNextChimeTime_state_dependence_witness :
    getNextChimeTime { mkChimeScheduler with running := true } ⟨10, 45, 0⟩
      = getNextChimeTime mkChimeScheduler ⟨10, 45, 0⟩ :=
  (getNextChimeTime_state_dependence mkChimeScheduler true ⟨10, 45, 0⟩).1

/-- C2 counterexample: after a failed audio-subsystem initialisation the
public operations do not all return false — `stop_sound` returns true in
the pygame-unavailable mode, and `set_volume` with an in-range volume
returns true in the mixer-init-failure mode. -/
theorem audio_failed_init_not_all_false :
    (stopSound (mkAudioManager .unavailable) .tick).fst = true ∧
    (setVolume (mkAudioManager .initError) .tick (1/2)).fst = true := by
  constructor
  · rfl
  · norm_num [setVolume, mkAudioManager]

/-- C2 amended: when the audio subsystem cannot initialize the
constructor swallows the failure, marks the engine initialised and
installs a mock channel per audio type; `play_sound` then returns false
while no sound is loaded; in the mixer-init-failure mode the installed
`MockChannel`'s self-less lambdas raise `TypeError` when called, so
`stop_sound` returns false there (and `load_sound_file` returns false),
while in the pygame-unavailable mode the module-level mock channels
work and `stop_sound` returns true; `set_volume` and
`set_master_volume` never consult the initialisation state and accept
in-range volumes in every mode. -/
theorem audio_failed_init_behavior (m : PygameMode) (env : Env) (t : AudioType) (v : ℚ)
    (p : String) (hm : m ≠ PygameMode.ok) (hv : 0 ≤ v ∧ v ≤ 1) (henv : env.mode = m) :
    (mkAudioManager m).initialized = true ∧
    ((mkAudioManager m).channels t).isSome = true ∧
    (mkAudioManager PygameMode.unavailable).channels t = some Channel.mockModule ∧
    (mkAudioManager PygameMode.initError).channels t = some Channel.mockBroken ∧
    (stopSound (mkAudioManager PygameMode.unavailable) t).fst = true ∧
    (stopSound (mkAudioManager PygameMode.initError) t).fst = false ∧
    (setVolume (mkAudioManager m) t v).fst = true ∧
    (setMasterVolume (mkAudioManager m) v).fst = true ∧
    (playSound (mkAudioManager m) t).fst = false ∧
    (m = PygameMode.initError → (loadSoundFile env (mkAudioManager m) t p).fst = false) := by
  refine ⟨rfl, rfl, rfl, rfl, rfl, rfl, ?_, ?_, ?_, ?_⟩
  · rw [setVolume, if_neg (not_not_intro hv)]; rfl
  · rw [setMasterVolume, if_neg (not_not_intro hv)]
  · rfl
  · intro hE
    subst hE
    cases hf : env.fileExists p <;> cases hsup : isSupportedFormat p <;>
      simp [loadSoundFile, mixerSoundLoad, henv, mkAudioManager, hf, hsup]

/-- Witness for the amended C2: in the mixer-init-failure mode
`stop_sound` returns false (the broken mock channel raises) and
`play_sound` with nothing loaded returns false. -/
theorem audio_failed_init_behavior_witness :
    (stopSound (mkAudioManager .initError) .tick).fst = false ∧
    (playSound (mkAudioManager .initError) .tick).fst = false :=
  ⟨(audio_failed_init_behavior .initError ⟨.initError, fun _ => true, fun _ => true⟩
      .tick (1/2) ("x.wav") (by decide) (by norm_num) rfl).2.2.2.2.2.1,
   (audio_failed_init_behavior .initError ⟨.initError, fun _ => true, fun _ => true⟩
      .tick (1/2) ("x.wav") (by decide) (by norm_num) rfl).2.2.2.2.2.2.2.2.1⟩

/-- C3 counterexample: `set_volume` has never been called on the fresh
engine, yet `get_volume(TICK)` returns 0.8, not 1.0 — the constructor
seeds TICK with 0.8, so the dict's 1.0 fallback is not reached. -/
theorem getVolume_initial_tick_ne_one :
    getVolume (mkAudioManager .ok) .tick = 8/10 ∧ ¬ ((8 : ℚ)/10 = 1) := by
  exact ⟨rfl, by norm_num⟩

/-- C3 amended: for a type on which `set_volume` has never been called,
`get_volume` returns the constructor's seeded value — 1.0 for the three
chime types but 0.8 for TICK and 0.9 for SPEECH; every type is seeded
(the dict-lookup default 1.0 is unreachable through the public API),
and no public operation other than `set_volume` changes a setting. -/
theorem getVolume_constructor_defaults (m : PygameMode) (t : AudioType) :
    getVolume (mkAudioManager m) t = (initialVolumeSettings t).getD 1 ∧
    initialVolumeSettings .hourChime = some 1 ∧
    initialVolumeSettings .quarterChime = some 1 ∧
    initialVolumeSettings .halfChime = some 1 ∧
    initialVolumeSettings .tick = some (8/10) ∧
    initialVolumeSettings .speech = some (9/10) ∧
    (∀ u, (initialVolumeSettings u).isSome = true) ∧
    (∀ (s : AudioManagerState) (v : ℚ),
      getVolume (setMasterVolume s v).snd t = getVolume s t) ∧
    (∀ (s : AudioManagerState) (u : AudioType),
      getVolume (playSound s u).snd t = getVolume s t) ∧
    (∀ (s : AudioManagerState) (u : AudioType),
      getVolume (stopSound s u).snd t = getVolume s t) ∧
    (∀ (env : Env) (s : AudioManagerState) (u : AudioType) (p : String),
      getVolume (loadSoundFile env s u p).snd t = getVolume s t) := by
  refine ⟨rfl, rfl, rfl, rfl, rfl, rfl, ?_, ?_, ?_, ?_, ?_⟩
  · intro u; cases u <;> rfl
  · intro s v
    unfold setMasterVolume getVolume
    split_ifs <;> rfl
  · intro s u
    cases hI : s.initialized <;> simp [playSound, getVolume, hI]
    cases hsf : s.soundFiles u <;> simp [hsf]
    cases hch : s.channels u <;> simp [hch]
    rename_i ch
    cases hb : channelGetBusy ch <;> simp [hb]
  · intro s u
    cases hI : s.initialized <;> simp [stopSound, getVolume, hI]
    cases hch : s.channels u <;> simp [hch]
    rename_i ch
    cases hb : channelGetBusy ch <;> simp [hb]
    split_ifs <;> rfl
  · intro env s u p
    unfold loadSoundFile getVolume
    split_ifs <;> try rfl
    cases hms : mixerSoundLoad env p <;> simp [hms]

/-- C5: `set_volume` with `v` in `[0, 1]` returns true and a subsequent
`get_volume` returns exactly `v`; with `v` outside `[0, 1]` it returns
false and every type's volume reads unchanged. -/
theorem setVolume_getVolume_roundtrip (s : AudioManagerState) (t : AudioType) (v : ℚ) :
    (0 ≤ v ∧ v ≤ 1 →
      (setVolume s t v).fst = true ∧ getVolume (setVolume s t v).snd t = v) ∧
    (¬ (0 ≤ v ∧ v ≤ 1) →
      (setVolume s t v).fst = false ∧
      ∀ u, getVolume (setVolume s t v).snd u = getVolume s u) := by
  constructor
  · intro hv
    rw [setVolume, if_neg (not_not_intro hv)]
    cases hsf : s.soundFiles t <;> simp [hsf, getVolume]
  · intro hv
    rw [setVolume, if_pos hv]
    exact ⟨rfl, fun u => rfl⟩

/-- Witness for C5: setting 0.5 round-trips; setting 1.5 is rejected. -/
theorem setVolume_getVolume_roundtrip_witness :
    getVolume (setVolume (mkAudioManager .ok) .hourChime (1/2)).snd .hourChime = 1/2 ∧
    (setVolume (mkAudioManager .ok) .hourChime (3/2)).fst = false :=
  ⟨((setVolume_getVolume_roundtrip (mkAudioManager .ok) .hourChime (1/2)).1
      (by norm_num)).2,
   ((setVolume_getVolume_roundtrip (mkAudioManager .ok) .hourChime (3/2)).2
      (by norm_num)).1⟩

/-- C6: the volume invariant holds at construction and is preserved by
`load_sound_file`, `set_volume` and `set_master_volume`; under it every
loaded sound's applied volume equals the type volume times the master
volume and lies in `[0, 1]`; concretely, type volume 0.5 with master
0.8 yields applied volume 0.4. -/
theorem effective_volume_spec (m : PygameMode) (env : Env) (s : AudioManagerState)
    (t : AudioType) (v : ℚ) (p : String) (h : VolumeInvariant s) :
    VolumeInvariant (mkAudioManager m) ∧
    VolumeInvariant (loadSoundFile env s t p).snd ∧
    VolumeInvariant (setVolume s t v).snd ∧
    VolumeInvariant (setMasterVolume s v).snd ∧
    (∀ u w, s.soundFiles u = some w →
      w.volume = getVolume s u * getMasterVolume s ∧ 0 ≤ w.volume ∧ w.volume ≤ 1) ∧
    ((setMasterVolume (setVolume
        (loadSoundFile envOkAll (mkAudioManager .ok) .hourChime ("c.wav")).snd
        .hourChime (1/2)).snd (8/10)).snd.soundFiles .hourChime
      = some { volume := 2/5 }) := by
  refine ⟨volumeInvariant_mk m, volumeInvariant_load env s t p h,
    volumeInvariant_setVolume s t v h, volumeInvariant_setMasterVolume s v h, ?_, ?_⟩
  · intro u w hw
    obtain ⟨hset, hmv, hsnd⟩ := h
    have hvol := hsnd u w hw
    have hb := volumeSetting_getD_bounds s hset u
    refine ⟨hvol, ?_, ?_⟩
    · rw [hvol]; exact mul_nonneg hb.1 hmv.1
    · rw [hvol]
      calc (s.volumeSettings u).getD 1 * s.masterVolume ≤ 1 * 1 :=
            mul_le_mul hb.2 hmv.2 hmv.1 zero_le_one
        _ = 1 := by norm_num
  · have hfmt : isSupportedFormat ("c.wav") = true := by decide
    norm_num [loadSoundFile, setVolume, setMasterVolume, mkAudioManager, mixerSoundLoad,
      envOkAll, hfmt, initialVolumeSettings]

/-- Witness for C6: the invariant holds after `set_volume 0.5` on a
freshly constructed engine. -/
theorem effective_volume_spec_witness :
    VolumeInvariant (setVolume (mkAudioManager .ok) .tick (1/2)).snd :=
  (effective_volume_spec .ok envOkAll (mkAudioManager .ok) .tick (1/2) ("x.wav")
    (volumeInvariant_mk .ok)).2.2.1

/-- C7: `load_sound_file` returns false and leaves the whole state — in
particular the sound registry — unchanged whenever the path does not
exist or its extension is unsupported; a type with no entry before the
call has none after it. -/
theorem loadSoundFile_rejects (env : Env) (s : AudioManagerState) (t : AudioType) (p : String)
    (h : env.fileExists p = false ∨ isSupportedFormat p = false) :
    (loadSoundFile env s t p).fst = false ∧
    (loadSoundFile env s t p).snd = s ∧
    (s.soundFiles t = none → (loadSoundFile env s t p).snd.soundFiles t = none) := by
  have : (loadSoundFile env s t p) = (false, s) := by
    unfold loadSoundFile
    cases hI : s.initialized
    · simp
    · rcases h with h | h
      · simp [h]
      · cases hf : env.fileExists p <;> simp [h, hf]
  rw [this]
  exact ⟨rfl, rfl, fun h' => h'⟩

/-- Witness for C7: loading `x.txt` fails both when the file is missing
and when it exists (unsupported extension, checked case-insensitively). -/
theorem loadSoundFile_rejects_witness :
    (loadSoundFile ⟨PygameMode.ok, fun _ => false, fun _ => true⟩ (mkAudioManager .ok)
        .tick ("x.txt")).fst = false ∧
    (loadSoundFile envOkAll (mkAudioManager .ok) .tick ("x.txt")).fst = false :=
  ⟨(loadSoundFile_rejects ⟨PygameMode.ok, fun _ => false, fun _ => true⟩ (mkAudioManager .ok)
      .tick ("x.txt") (Or.inl rfl)).1,
   (loadSoundFile_rejects envOkAll (mkAudioManager .ok) .tick ("x.txt")
      (Or.inr (by decide))).1⟩

end AccessiClock
